import Mathlib

/-!
Verification development for the AccessPaper repository.

Part A embeds the visible presentation layer (src/src/components/Main.jsx
and src/frontend/src/lib/api.js) as pure Lean functions.

Part B models the resolution engine (Provider Adapter, Registry, Query
Orchestrator, Result Reconciler, Resolution Facade).  The engine's code is
not among the visible sources — only the presentation layer, README files
and install scripts are — so every engine definition is modelled from the
specification's words and carries a doc comment saying so.
-/

/-! ## Part A: presentation layer (embedded from source) -/

/-- Strip leading and trailing whitespace from a character list (the
character-level reading of JavaScript's `String.prototype.trim`). -/
def trimChars (l : List Char) : List Char :=
  ((l.dropWhile Char.isWhitespace).reverse.dropWhile Char.isWhitespace).reverse

/-- Trim surrounding whitespace from a string. -/
def strTrim (s : String) : String :=
  ⟨trimChars s.data⟩

/-- Split a character list on a separator character. -/
def splitOnChar (sep : Char) (l : List Char) : List (List Char) :=
  match l with
  | [] => [[]]
  | c :: cs =>
    let r := splitOnChar sep cs
    if c = sep then [] :: r
    else match r with
      | [] => [[c]]
      | h :: t => (c :: h) :: t

/-- A JSON scalar value as handled by the presentation layer. -/
inductive JVal where
  | str (s : String)
  | num (n : Int)
  | boolean (b : Bool)
  | nullv
deriving Repr, DecidableEq

/-- The shape of the `logs` field of a backend response as seen by
`handleSearch` in Main.jsx: it may be missing, present but not an array,
or an array of JSON values.  (A JS array is always truthy, and a non-array
value fails `Array.isArray`, so the source's condition
`data.logs && Array.isArray(data.logs)` holds exactly when the field is an
array.) -/
inductive LogsField where
  | missing
  | scalar (v : JVal)
  | arrayOf (elems : List JVal)
deriving Repr, DecidableEq

/-- The metadata object of a search response, as read by Main.jsx
(`results.metadata?.title` etc.). -/
structure FrontMetadata where
  title : Option String
  journal : Option String
  year : Option String
  corresponding_email : Option String
deriving Repr, DecidableEq

/-- The parsed JSON body of a `/api/search` response, with the fields the
component reads. -/
structure SearchData where
  metadata : Option FrontMetadata
  pdf_link : Option String
  source : Option String
  message : Option String
  logs : LogsField
deriving Repr, DecidableEq

/-- An HTTP response as observed by `handleSearch`: status, status text and
parsed body. -/
structure HttpResponse where
  status : Nat
  statusText : String
  data : SearchData
deriving Repr, DecidableEq

/-- `Response.ok` of the fetch API: status in the inclusive range 200–299. -/
def isOkStatus (status : Nat) : Bool :=
  200 ≤ status && status ≤ 299

/-- `response.ok` for the modelled response. -/
def responseOk (r : HttpResponse) : Bool :=
  isOkStatus r.status

/-- The two UI modes of the Main component. -/
inductive Mode where
  | input
  | results
deriving Repr, DecidableEq

/-- The component state that `handleSearch` reads and writes. -/
structure HandleState where
  mode : Mode
  logs : List JVal
  results : Option SearchData
deriving Repr, DecidableEq

/-- The observable outcome of one `handleSearch` invocation: whether a
fetch was issued, the alert shown (if any), and the state afterwards. -/
structure HandleOutcome where
  fetchIssued : Bool
  alertMsg : Option String
  mode : Mode
  logs : List JVal
  results : Option SearchData
deriving Repr, DecidableEq

/-- `handleSearch` from Main.jsx.  `response` is the response the fetch
would produce if issued.  Branches: empty trimmed input alerts and returns
before any fetch; a non-ok response throws `Server error: <statusText>`,
which the catch block turns into an alert and an appended error log (mode
unchanged, results cleared by the pre-fetch `setResults(null)`); an ok
response stores the logs (as-is when the `logs` field is an array, else
appending a fallback line), stores the data and switches to results mode. -/
def handleSearch (searchQuery : String) (response : HttpResponse)
    (st : HandleState) : HandleOutcome :=
  let doi := strTrim searchQuery
  if doi = "" then
    { fetchIssued := false, alertMsg := some "Please enter a DOI.",
      mode := st.mode, logs := st.logs, results := st.results }
  else if responseOk response = false then
    { fetchIssued := true,
      alertMsg := some ("Search failed: Server error: " ++ response.statusText),
      mode := st.mode,
      logs := st.logs ++ [JVal.str ("Error: Server error: " ++ response.statusText)],
      results := none }
  else
    { fetchIssued := true, alertMsg := none, mode := Mode.results,
      logs := match response.data.logs with
        | LogsField.arrayOf xs => xs
        | _ => st.logs ++ [JVal.str "No detailed logs returned from backend."],
      results := some response.data }

/-- An HTTP response as observed by `fetchFromBackend` in api.js, with a
parsed body of an arbitrary JSON shape `β`. -/
structure BackendResponse (β : Type) where
  status : Nat
  statusText : String
  body : β
deriving Repr, DecidableEq

/-- `fetchFromBackend` from src/frontend/src/lib/api.js: on a non-ok
response it throws `Backend request failed: <status> <statusText>`;
otherwise it returns the parsed JSON body. -/
def fetchFromBackend {β : Type} (res : BackendResponse β) : Except String β :=
  if isOkStatus res.status then Except.ok res.body
  else Except.error
    ("Backend request failed: " ++ toString res.status ++ " " ++ res.statusText)

/-- Whether every element of a list of JSON values is a string. -/
def allStrings (l : List JVal) : Bool :=
  l.all fun v => match v with
    | JVal.str _ => true
    | _ => false

/-! ## Part B: resolution engine (modelled from the spec) -/

/-- Modelled from the spec: the status of one adapter call
(`found`, `not-found`, `error`). -/
inductive PStatus where
  | found
  | notFound
  | error
deriving Repr, DecidableEq

/-- Modelled from the spec: the optional bibliographic metadata of a
`ProviderResult` (title, journal, year, corresponding email). -/
structure Metadata where
  title : Option String
  journal : Option String
  year : Option String
  correspondingEmail : Option String
deriving Repr, DecidableEq

/-- The empty metadata record. -/
def Metadata.empty : Metadata :=
  ⟨none, none, none, none⟩

/-- A field is populated when it holds a non-empty string. -/
def populated (o : Option String) : Bool :=
  match o with
  | none => false
  | some s => !s.isEmpty

/-- Whether a metadata record has at least one populated field. -/
def metaNonEmpty (m : Metadata) : Bool :=
  populated m.title || populated m.journal || populated m.year ||
    populated m.correspondingEmail

/-- The number of populated metadata fields (0–4), the spec's notion of
metadata richness for the tie-break. -/
def richness (m : Metadata) : Nat :=
  (if populated m.title then 1 else 0) +
  (if populated m.journal then 1 else 0) +
  (if populated m.year then 1 else 0) +
  (if populated m.correspondingEmail then 1 else 0)

/-- Modelled from the spec: the output of one adapter call. -/
structure ProviderResult where
  source : String
  status : PStatus
  metadata : Metadata
  fullTextLink : Option String
  message : Option String
deriving Repr, DecidableEq

/-- A full-text link is non-empty when present and not the empty string. -/
def linkNonEmpty (o : Option String) : Bool :=
  match o with
  | none => false
  | some s => !s.isEmpty

/-- A result can win the link selection exactly when its status is `found`
and it bears a non-empty full-text link. -/
def isCandidate (r : ProviderResult) : Bool :=
  r.status = PStatus.found && linkNonEmpty r.fullTextLink

/-- Modelled from the spec: the static configuration entry for one
adapter — name, tier rank and per-call timeout. -/
structure ProviderSpec where
  name : String
  tier : Nat
  timeoutMs : Nat
deriving Repr, DecidableEq

/-- Modelled from the spec: the provider-specific fields extracted from a
well-formed response body. -/
structure RawRecord where
  found : Bool
  title : Option String
  journal : Option String
  year : Option String
  email : Option String
  link : Option String
deriving Repr, DecidableEq

/-- Modelled from the spec: the raw outcome of the single outbound HTTP
call an adapter performs — a response with an HTTP status and a body that
either parsed into a record or was malformed (`none`), a transport
failure, or a timeout. -/
inductive Transport where
  | success (httpStatus : Nat) (body : Option RawRecord)
  | transportFailure (msg : String)
  | timeout
deriving Repr, DecidableEq

/-- Modelled from the spec (§4.1): `resolve(doi) -> ProviderResult`; any
transport failure, malformed response or HTTP error status is captured and
returned as `status = error` with a diagnostic message, never thrown.  A
well-formed hit with neither metadata nor link is degraded to `not-found`,
preserving the invariant that `found` implies non-empty content. -/
def adapterResolve (p : ProviderSpec) (t : Transport) : ProviderResult :=
  match t with
  | Transport.timeout =>
      ⟨p.name, PStatus.error, Metadata.empty, none, some "timeout"⟩
  | Transport.transportFailure m =>
      ⟨p.name, PStatus.error, Metadata.empty, none,
        some ("transport failure: " ++ m)⟩
  | Transport.success st body =>
      if isOkStatus st then
        match body with
        | none =>
            ⟨p.name, PStatus.error, Metadata.empty, none,
              some "malformed response"⟩
        | some rec =>
            if rec.found then
              let md : Metadata := ⟨rec.title, rec.journal, rec.year, rec.email⟩
              if linkNonEmpty rec.link || metaNonEmpty md then
                ⟨p.name, PStatus.found, md, rec.link, none⟩
              else
                ⟨p.name, PStatus.notFound, Metadata.empty, none,
                  some "empty hit treated as not found"⟩
            else
              ⟨p.name, PStatus.notFound, Metadata.empty, none, none⟩
      else
        ⟨p.name, PStatus.error, Metadata.empty, none,
          some ("HTTP error status " ++ toString st)⟩

/-- The transport outcomes the spec classifies as failures: timeout,
transport failure, HTTP error status, or a malformed (unparseable) body. -/
def isFailureOutcome (t : Transport) : Bool :=
  match t with
  | Transport.timeout => true
  | Transport.transportFailure _ => true
  | Transport.success st body => !isOkStatus st || body.isNone

/-- Modelled from the spec: one adapter invocation prepared for a request,
carrying the provider's spec, the `ProviderResult` the call produces, and
the elapsed time at which the call completes.  A tier is a list of such
calls in completion order; the registry's walk is a list of tiers. -/
structure Call where
  pspec : ProviderSpec
  result : ProviderResult
  time : Nat
deriving Repr, DecidableEq

/-- Modelled from the spec: one `ResolutionTrace` entry — provider name,
outcome label and elapsed time. -/
structure TraceEntry where
  provider : String
  outcome : String
  elapsed : Nat
deriving Repr, DecidableEq

/-- The trace label of a result status. -/
def statusLabel (s : PStatus) : String :=
  match s with
  | PStatus.found => "found"
  | PStatus.notFound => "not-found"
  | PStatus.error => "error"

/-- The trace entry of one call.  When a grace cutoff is in force, a call
completing after the cutoff is recorded as abandoned. -/
def traceOf (cutoff : Option Nat) (c : Call) : TraceEntry :=
  { provider := c.pspec.name,
    outcome := match cutoff with
      | some cut => if c.time ≤ cut then statusLabel c.result.status else "abandoned"
      | none => statusLabel c.result.status,
    elapsed := c.time }

/-- The first call in completion order whose result is a link-bearing
`found` — the orchestrator's short-circuit trigger within a tier. -/
def firstCandidate (t : List Call) : Option Call :=
  t.find? fun c => isCandidate c.result

/-- Modelled from the spec: the orchestrator's accumulated outcome — the
collected results (completion order), the trace (one entry per issued
call) and the names of the providers whose calls were issued. -/
structure OrchOutcome where
  results : List Call
  trace : List TraceEntry
  issued : List String
deriving Repr, DecidableEq

/-- Modelled from the spec (§4.3): walk tiers in registry order.  A tier
with no link-bearing `found` contributes all its results and the walk goes
on to the next tier.  As soon as a tier contains a link-bearing `found`
(first in completion order), the walk short-circuits: calls of that tier
completing within the grace window after the trigger are collected, later
ones are abandoned, and no further tier is issued. -/
def orchestrate (grace : Nat) : List (List Call) → OrchOutcome
  | [] => ⟨[], [], []⟩
  | t :: ts =>
    match firstCandidate t with
    | some w =>
        ⟨t.filter fun c => c.time ≤ w.time + grace,
         t.map (traceOf (some (w.time + grace))),
         t.map fun c => c.pspec.name⟩
    | none =>
        let rest := orchestrate grace ts
        ⟨t ++ rest.results,
         t.map (traceOf none) ++ rest.trace,
         (t.map fun c => c.pspec.name) ++ rest.issued⟩

/-- The ordering key for the merge of one metadata field: tier rank first,
then provider name, then the value itself — a linear order, so the chosen
value is independent of the order in which results are presented. -/
abbrev MetaKey := Lex (Nat × Lex (String × String))

/-- The merge candidates a list of results offers for one metadata field:
one key per result whose field is populated. -/
def fieldCandidates (extract : Metadata → Option String) (l : List Call) :
    List MetaKey :=
  l.filterMap fun c =>
    match extract c.result.metadata with
    | some v => if v.isEmpty then none else
        some (toLex (c.pspec.tier, toLex (c.pspec.name, v)))
    | none => none

/-- Modelled from the spec (§4.4): for one metadata field, take the first
non-empty value in tier order — realized as the least merge candidate
under `MetaKey`'s linear order (earliest tier wins; within a tier the
order on provider name and value keeps the choice reproducible, as §9
requires). -/
def selectField (extract : Metadata → Option String) (l : List Call) :
    Option String :=
  match (fieldCandidates extract l).minimum with
  | none => none
  | some k => some (ofLex (ofLex k).2).2

/-- Modelled from the spec (§4.4): the merged metadata record, field by
field. -/
def mergeMetadata (l : List Call) : Metadata :=
  { title := selectField Metadata.title l,
    journal := selectField Metadata.journal l,
    year := selectField Metadata.year l,
    correspondingEmail := selectField Metadata.correspondingEmail l }

/-- The link-selection tie-break key (§4.3): tier rank first, then
richness (more populated metadata fields first, encoded as the number of
missing fields), completion order last. -/
def linkKey (c : Call) : Lex (Nat × Nat) :=
  toLex (c.pspec.tier, 4 - richness c.result.metadata)

/-- Modelled from the spec (§4.3): the winning link-bearing result — the
candidate least under the tie-break key, ties resolved in favour of the
first-completed candidate. -/
def selectLink (l : List Call) : Option Call :=
  (l.filter fun c => isCandidate c.result).argmin linkKey

/-- Modelled from the spec: the Reconciler's output. -/
structure ResolvedPaper where
  metadata : Metadata
  fullTextLink : Option String
  source : Option String
  message : Option String
deriving Repr, DecidableEq

/-- Modelled from the spec (§4.4): merge metadata from all collected
results; the full-text link, credited source and message come from the
orchestrator's winner; with no winner the link is absent and the message
is the neutral no-copy explanation. -/
def reconcile (winner : Option Call) (l : List Call) : ResolvedPaper :=
  { metadata := mergeMetadata l,
    fullTextLink := winner.bind fun c => c.result.fullTextLink,
    source := winner.map fun c => c.pspec.name,
    message := match winner with
      | none => some "no open-access copy found"
      | some c => c.result.message }

/-- Modelled from the spec (§4.5): input normalization — trim surrounding
whitespace and case-fold (the DOI is case-insensitive). -/
def normalizeDOI (raw : String) : String :=
  ⟨(trimChars raw.data).map Char.toLower⟩

/-- Whether a string carries the mandatory `10.` DOI namespace marker. -/
def hasDOIMarker (s : String) : Bool :=
  List.isPrefixOf ['1', '0', '.'] s.data

/-- Modelled from the spec (§3): the canonical `10.<registrant>/<suffix>`
shape — the `10.` marker followed by a non-empty registrant, a slash and a
suffix containing at least one further character. -/
def isValidDOI (s : String) : Bool :=
  hasDOIMarker s &&
  match splitOnChar '/' (s.data.drop 3) with
  | [] => false
  | registrant :: suffixParts =>
      !registrant.isEmpty && !suffixParts.flatten.isEmpty

/-- Modelled from the spec: the Facade's outcome — a structured
invalid-input rejection, or a resolved paper with its trace. -/
inductive FacadeOutcome where
  | invalidInput
  | resolved (paper : ResolvedPaper) (trace : List TraceEntry)
deriving Repr, DecidableEq

/-- Modelled from the spec (§4.5): the Resolution Facade.  Normalizes the
raw input, rejects malformed DOIs before any provider call, otherwise
runs the orchestrator, selects the winning link and reconciles.  The
second component is the list of issued provider calls (empty on
rejection). -/
def facadeHandle (raw : String) (grace : Nat) (tiers : List (List Call)) :
    FacadeOutcome × List String :=
  let doi := normalizeDOI raw
  if isValidDOI doi then
    let o := orchestrate grace tiers
    (FacadeOutcome.resolved (reconcile (selectLink o.results) o.results) o.trace,
      o.issued)
  else
    (FacadeOutcome.invalidInput, [])

/-! ## Shared helper lemmas -/

/-- The minimum of a list depends only on the multiset of its elements. -/
theorem minimum_of_perm {α : Type} [LinearOrder α] {l l2 : List α}
    (h : l.Perm l2) : l.minimum = l2.minimum := by
  cases hl : l.minimum with
  | top =>
      have hnil : l = [] := List.minimum_eq_top.mp hl
      subst hnil
      have hnil2 : l2 = [] := h.symm.eq_nil
      subst hnil2
      exact List.minimum_nil.symm
  | coe m =>
      have h1 := List.minimum_eq_coe_iff.mp hl
      have h2 : l2.minimum = (m : WithTop α) :=
        List.minimum_eq_coe_iff.mpr
          ⟨h.mem_iff.mp h1.1, fun a ha => h1.2 a (h.mem_iff.mpr ha)⟩
      exact h2.symm

/-- A winning link-bearing result is a member of the input and is a
candidate, and its tie-break key is minimal among the candidates. -/
theorem selectLink_spec {l : List Call} {w : Call}
    (hw : selectLink l = some w) :
    w ∈ l ∧ isCandidate w.result = true ∧
      ∀ c ∈ l, isCandidate c.result = true → linkKey w ≤ linkKey c := by
  have hmem : w ∈ (l.filter fun c => isCandidate c.result).argmin linkKey :=
    Option.mem_def.mpr hw
  have hwf : w ∈ l.filter fun c => isCandidate c.result := List.argmin_mem hmem
  have hwl := List.mem_filter.mp hwf
  refine ⟨hwl.1, hwl.2, fun c hc hcand => ?_⟩
  exact List.le_of_mem_argmin (List.mem_filter.mpr ⟨hc, hcand⟩) hmem

/-! ## Claim theorems -/

/-- Claim C1: for every malformed DOI input (one that after normalization
lacks the `10.` marker — which covers the empty string and whitespace-only
input), the facade returns the `invalidInput` outcome and issues zero
provider calls; and in the presentation layer, `handleSearch` with an
input that trims to the empty string returns before any fetch is issued. -/
theorem c1_invalid_input_rejected_without_calls
    (raw : String) (grace : Nat) (tiers : List (List Call))
    (hmal : hasDOIMarker (normalizeDOI raw) = false)
    (q : String) (resp : HttpResponse) (st : HandleState)
    (hq : strTrim q = "") :
    facadeHandle raw grace tiers = (FacadeOutcome.invalidInput, []) ∧
    (handleSearch q resp st).fetchIssued = false := by
  constructor
  · simp [facadeHandle, isValidDOI, hmal]
  · simp [handleSearch, hq]

/-- Witness for C1 at the spec's Scenario D input `"not-a-doi"` and a
whitespace-only search query. -/
theorem c1_witness :
    facadeHandle "not-a-doi" 3
        [[⟨⟨"arxiv", 2, 5000⟩,
           ⟨"arxiv", PStatus.notFound, Metadata.empty, none, none⟩, 20⟩]] =
      (FacadeOutcome.invalidInput, []) ∧
    (handleSearch "   "
        ⟨200, "OK", ⟨none, none, none, none, LogsField.missing⟩⟩
        ⟨Mode.input, [], none⟩).fetchIssued = false :=
  c1_invalid_input_rejected_without_calls "not-a-doi" 3 _ (by decide)
    "   " _ _ (by decide)

/-- Claim C2: an adapter never lets a failure escape its boundary — every
transport failure, timeout, HTTP error status or malformed response body
is returned as a normal `ProviderResult` with `status = error` and a
diagnostic message; and at the orchestrator level every issued call is
absorbed into exactly one trace entry (the issued-call list is precisely
the providers of the trace). -/
theorem c2_adapter_absorbs_failures
    (p : ProviderSpec) (t : Transport) (h : isFailureOutcome t = true)
    (grace : Nat) (tiers : List (List Call)) :
    ((adapterResolve p t).status = PStatus.error ∧
      (adapterResolve p t).message.isSome = true) ∧
    (orchestrate grace tiers).trace.map TraceEntry.provider =
      (orchestrate grace tiers).issued := by
  constructor
  · cases t with
    | timeout => simp [adapterResolve]
    | transportFailure m => simp [adapterResolve]
    | success st body =>
        simp only [isFailureOutcome, Bool.or_eq_true, Bool.not_eq_true',
          Option.isNone_iff_eq_none] at h
        rcases h with h | h
        · simp [adapterResolve, h]
        · subst h
          cases hst : isOkStatus st <;> simp [adapterResolve, hst]
  · induction tiers with
    | nil => simp [orchestrate]
    | cons t ts ih =>
        unfold orchestrate
        cases hfc : firstCandidate t with
        | some w =>
            simp only [List.map_map]
            rfl
        | none =>
            simp only [List.map_append, List.map_map]
            rw [ih]
            rfl

/-- Witness for C2 at a timed-out call and a one-tier registry. -/
theorem c2_witness :
    ((adapterResolve ⟨"unpaywall", 1, 5000⟩ Transport.timeout).status =
        PStatus.error ∧
      (adapterResolve ⟨"unpaywall", 1, 5000⟩ Transport.timeout).message.isSome =
        true) ∧
    (orchestrate 3
        [[⟨⟨"arxiv", 2, 5000⟩,
           ⟨"arxiv", PStatus.notFound, Metadata.empty, none, none⟩, 20⟩]]).trace.map
        TraceEntry.provider =
      (orchestrate 3
        [[⟨⟨"arxiv", 2, 5000⟩,
           ⟨"arxiv", PStatus.notFound, Metadata.empty, none, none⟩, 20⟩]]).issued :=
  c2_adapter_absorbs_failures ⟨"unpaywall", 1, 5000⟩ Transport.timeout
    (by decide) 3 _

/-- A result demoted to `not-found`, its other fields unchanged. -/
def demote (c : Call) : Call :=
  { c with result := { c.result with status := PStatus.notFound } }

/-- Claim C7: a result with `status = found` but empty metadata and an
empty full-text link is treated by link selection exactly as a
`not-found` result — replacing it by its `not-found` demotion leaves the
selection unchanged — and it is never chosen as the winning link. -/
theorem c7_degenerate_found_never_wins
    (l1 l2 : List Call) (r : Call)
    (hst : r.result.status = PStatus.found)
    (hmeta : r.result.metadata = Metadata.empty)
    (hlink : linkNonEmpty r.result.fullTextLink = false) :
    selectLink (l1 ++ r :: l2) = selectLink (l1 ++ demote r :: l2) ∧
    ∀ w, selectLink (l1 ++ r :: l2) = some w → w ≠ r := by
  have hcr : isCandidate r.result = false := by
    unfold isCandidate
    rw [hlink]
    simp
  have hcd : isCandidate (demote r).result = false := by
    simp [isCandidate, demote]
  constructor
  · unfold selectLink
    rw [List.filter_append, List.filter_append, List.filter_cons,
      List.filter_cons, hcr, hcd]
    simp
  · intro w hw he
    have hspec := selectLink_spec hw
    rw [he, hcr] at hspec
    exact Bool.false_ne_true hspec.2.1

/-- Witness for C7: a degenerate `found` (tier 1, empty link) next to a
genuine candidate in tier 2. -/
theorem c7_witness :
    selectLink
        ([] ++ ⟨⟨"core", 1, 5000⟩,
            ⟨"core", PStatus.found, Metadata.empty, some "", none⟩, 5⟩ ::
          [⟨⟨"arxiv", 2, 5000⟩,
            ⟨"arxiv", PStatus.found, Metadata.empty, some "http://a/pdf", none⟩, 9⟩]) =
      selectLink
        ([] ++ demote ⟨⟨"core", 1, 5000⟩,
            ⟨"core", PStatus.found, Metadata.empty, some "", none⟩, 5⟩ ::
          [⟨⟨"arxiv", 2, 5000⟩,
            ⟨"arxiv", PStatus.found, Metadata.empty, some "http://a/pdf", none⟩, 9⟩]) ∧
    ∀ w, selectLink
        ([] ++ ⟨⟨"core", 1, 5000⟩,
            ⟨"core", PStatus.found, Metadata.empty, some "", none⟩, 5⟩ ::
          [⟨⟨"arxiv", 2, 5000⟩,
            ⟨"arxiv", PStatus.found, Metadata.empty, some "http://a/pdf", none⟩, 9⟩]) =
          some w →
      w ≠ ⟨⟨"core", 1, 5000⟩,
        ⟨"core", PStatus.found, Metadata.empty, some "", none⟩, 5⟩ :=
  c7_degenerate_found_never_wins []
    [⟨⟨"arxiv", 2, 5000⟩,
      ⟨"arxiv", PStatus.found, Metadata.empty, some "http://a/pdf", none⟩, 9⟩]
    ⟨⟨"core", 1, 5000⟩, ⟨"core", PStatus.found, Metadata.empty, some "", none⟩, 5⟩
    (by decide) (by decide) (by decide)

/-- Claim C8: `fetchFromBackend` returns the parsed JSON body exactly when
the response status is ok (2xx) and otherwise throws an error whose
message contains the status; and `handleSearch` on a non-ok response
displays the error message and stays in input mode with no results view. -/
theorem c8_non_ok_response_surfaces_error
    {β : Type} (res : BackendResponse β)
    (q : String) (resp : HttpResponse) (st : HandleState)
    (hq : strTrim q ≠ "") (hnot : responseOk resp = false)
    (hmode : st.mode = Mode.input) :
    (isOkStatus res.status = true → fetchFromBackend res = Except.ok res.body) ∧
    (isOkStatus res.status = false →
      ∃ a b, fetchFromBackend res =
        Except.error (a ++ toString res.status ++ b)) ∧
    (handleSearch q resp st).mode = Mode.input ∧
    (handleSearch q resp st).alertMsg =
      some ("Search failed: Server error: " ++ resp.statusText) ∧
    (handleSearch q resp st).results = none := by
  refine ⟨fun hok => ?_, fun hko => ?_, ?_, ?_, ?_⟩
  · simp [fetchFromBackend, hok]
  · refine ⟨"Backend request failed: ", " " ++ res.statusText, ?_⟩
    simp [fetchFromBackend, hko, String.append_assoc]
  · simp [handleSearch, hq, hnot, hmode]
  · simp [handleSearch, hq, hnot]
  · simp [handleSearch, hq, hnot]

/-- Witness for C8 at a 404 backend response and a 500 search response. -/
theorem c8_witness :
    (isOkStatus (404 : Nat) = true →
      fetchFromBackend (⟨404, "Not Found", (0 : Nat)⟩ : BackendResponse Nat) =
        Except.ok 0) ∧
    (isOkStatus (404 : Nat) = false →
      ∃ a b, fetchFromBackend
          (⟨404, "Not Found", (0 : Nat)⟩ : BackendResponse Nat) =
        Except.error (a ++ toString (404 : Nat) ++ b)) ∧
    (handleSearch "10.1/x"
        ⟨500, "Internal Server Error",
          ⟨none, none, none, none, LogsField.missing⟩⟩
        ⟨Mode.input, [], none⟩).mode = Mode.input ∧
    (handleSearch "10.1/x"
        ⟨500, "Internal Server Error",
          ⟨none, none, none, none, LogsField.missing⟩⟩
        ⟨Mode.input, [], none⟩).alertMsg =
      some ("Search failed: Server error: " ++ "Internal Server Error") ∧
    (handleSearch "10.1/x"
        ⟨500, "Internal Server Error",
          ⟨none, none, none, none, LogsField.missing⟩⟩
        ⟨Mode.input, [], none⟩).results = none :=
  c8_non_ok_response_surfaces_error (⟨404, "Not Found", (0 : Nat)⟩ : BackendResponse Nat)
    "10.1/x"
    ⟨500, "Internal Server Error", ⟨none, none, none, none, LogsField.missing⟩⟩
    ⟨Mode.input, [], none⟩ (by decide) (by decide) rfl

/-- Counterexample to claim C9 as stated: a successful response whose
`logs` field is the array `[7]` is stored as-is, so the logs state is a
defined array but not an array of strings. -/
theorem c9_counterexample :
    allStrings (handleSearch "10.1/x"
        ⟨200, "OK", ⟨none, none, none, none, LogsField.arrayOf [JVal.num 7]⟩⟩
        ⟨Mode.input, [], none⟩).logs = false := by
  decide

/-- Claim C9 (amended): after every successful search response the logs
state is a defined array of JSON values — the response's `logs` array
as-is when that field is an array, and otherwise the previous logs with
the fallback string appended; a missing or non-array `logs` field never
leaves the state undefined. -/
theorem c9_logs_always_defined_array
    (q : String) (resp : HttpResponse) (st : HandleState)
    (hq : strTrim q ≠ "") (hok : responseOk resp = true) :
    (∀ xs, resp.data.logs = LogsField.arrayOf xs →
      (handleSearch q resp st).logs = xs) ∧
    ((∀ xs, resp.data.logs ≠ LogsField.arrayOf xs) →
      (handleSearch q resp st).logs =
        st.logs ++ [JVal.str "No detailed logs returned from backend."]) := by
  constructor
  · intro xs hxs
    simp [handleSearch, hq, hok, hxs]
  · intro hnone
    cases hlog : resp.data.logs with
    | missing => simp [handleSearch, hq, hok, hlog]
    | scalar v => simp [handleSearch, hq, hok, hlog]
    | arrayOf xs => exact absurd hlog (hnone xs)

/-- Witness for C9 (amended) at a response with a string log array and at
one with a missing `logs` field. -/
theorem c9_witness :
    (∀ xs, (⟨none, none, none, none,
          LogsField.arrayOf [JVal.str "t1 ok"]⟩ : SearchData).logs =
        LogsField.arrayOf xs →
      (handleSearch "10.1/x"
          ⟨200, "OK", ⟨none, none, none, none,
            LogsField.arrayOf [JVal.str "t1 ok"]⟩⟩
          ⟨Mode.input, [], none⟩).logs = xs) ∧
    ((∀ xs, (⟨none, none, none, none,
          LogsField.arrayOf [JVal.str "t1 ok"]⟩ : SearchData).logs ≠
        LogsField.arrayOf xs) →
      (handleSearch "10.1/x"
          ⟨200, "OK", ⟨none, none, none, none,
            LogsField.arrayOf [JVal.str "t1 ok"]⟩⟩
          ⟨Mode.input, [], none⟩).logs =
        [] ++ [JVal.str "No detailed logs returned from backend."]) :=
  c9_logs_always_defined_array "10.1/x"
    ⟨200, "OK", ⟨none, none, none, none, LogsField.arrayOf [JVal.str "t1 ok"]⟩⟩
    ⟨Mode.input, [], none⟩ (by decide) (by decide)

/-- Per-field merge is permutation-invariant: the merge candidates of a
permutation are a permutation, and a linear-order minimum ignores order. -/
theorem selectField_of_perm (extract : Metadata → Option String)
    {l l2 : List Call} (h : l.Perm l2) :
    selectField extract l = selectField extract l2 := by
  unfold selectField fieldCandidates
  rw [minimum_of_perm (h.filterMap _)]

/-- Claim C3: for every list of results with at least one link-bearing
`found`, the merged metadata is the same for any permutation of the
results, and link selection on the fixed completion order picks a
candidate whose tier-then-richness key is minimal (ties resolved by
completion order, making the selection a deterministic function). -/
theorem c3_merge_order_independent_link_deterministic
    (l l2 : List Call) (hperm : l.Perm l2)
    (hcand : ∃ c ∈ l, isCandidate c.result = true) :
    mergeMetadata l = mergeMetadata l2 ∧
    ∃ w, selectLink l = some w ∧ isCandidate w.result = true ∧
      ∀ c ∈ l, isCandidate c.result = true → linkKey w ≤ linkKey c := by
  constructor
  · unfold mergeMetadata
    rw [selectField_of_perm Metadata.title hperm,
      selectField_of_perm Metadata.journal hperm,
      selectField_of_perm Metadata.year hperm,
      selectField_of_perm Metadata.correspondingEmail hperm]
  · obtain ⟨c0, hc0, hc0c⟩ := hcand
    have hmem : c0 ∈ l.filter fun c => isCandidate c.result :=
      List.mem_filter.mpr ⟨hc0, hc0c⟩
    cases hw : selectLink l with
    | none =>
        exfalso
        unfold selectLink at hw
        rw [List.argmin_eq_none] at hw
        rw [hw] at hmem
        exact absurd hmem (List.not_mem_nil c0)
    | some w =>
        have hspec := selectLink_spec hw
        exact ⟨w, rfl, hspec.2.1, hspec.2.2⟩

/-- Witness for C3: a tier-1 candidate and a tier-2 `not-found`, presented
in both orders. -/
theorem c3_witness :
    mergeMetadata
        [⟨⟨"unpaywall", 1, 5000⟩,
          ⟨"unpaywall", PStatus.found, ⟨some "T", none, none, none⟩,
            some "http://x/pdf", none⟩, 10⟩,
         ⟨⟨"arxiv", 2, 5000⟩,
          ⟨"arxiv", PStatus.notFound, Metadata.empty, none, none⟩, 20⟩] =
      mergeMetadata
        [⟨⟨"arxiv", 2, 5000⟩,
          ⟨"arxiv", PStatus.notFound, Metadata.empty, none, none⟩, 20⟩,
         ⟨⟨"unpaywall", 1, 5000⟩,
          ⟨"unpaywall", PStatus.found, ⟨some "T", none, none, none⟩,
            some "http://x/pdf", none⟩, 10⟩] ∧
    ∃ w, selectLink
        [⟨⟨"unpaywall", 1, 5000⟩,
          ⟨"unpaywall", PStatus.found, ⟨some "T", none, none, none⟩,
            some "http://x/pdf", none⟩, 10⟩,
         ⟨⟨"arxiv", 2, 5000⟩,
          ⟨"arxiv", PStatus.notFound, Metadata.empty, none, none⟩, 20⟩] = some w ∧
      isCandidate w.result = true ∧
      ∀ c ∈ [⟨⟨"unpaywall", 1, 5000⟩,
          ⟨"unpaywall", PStatus.found, ⟨some "T", none, none, none⟩,
            some "http://x/pdf", none⟩, 10⟩,
         ⟨⟨"arxiv", 2, 5000⟩,
          (⟨"arxiv", PStatus.notFound, Metadata.empty, none, none⟩ : ProviderResult), 20⟩],
        isCandidate c.result = true → linkKey w ≤ linkKey c :=
  c3_merge_order_independent_link_deterministic _ _ (by decide) (by decide)

/-- A tier whose calls all completed `not-found` has no short-circuit
trigger. -/
theorem firstCandidate_eq_none {t : List Call}
    (h : ∀ c ∈ t, c.result.status = PStatus.notFound) :
    firstCandidate t = none := by
  unfold firstCandidate
  rw [List.find?_eq_none]
  intro c hc
  simp [isCandidate, h c hc]

/-- When no tier triggers a short-circuit, the orchestrator collects every
call of every tier, traces each in order, and issues all of them. -/
theorem orchestrate_no_candidate (grace : Nat) {tiers : List (List Call)}
    (h : ∀ t ∈ tiers, firstCandidate t = none) :
    orchestrate grace tiers =
      ⟨tiers.flatten, tiers.flatten.map (traceOf none),
       tiers.flatten.map fun c => c.pspec.name⟩ := by
  induction tiers with
  | nil => simp [orchestrate]
  | cons t ts ih =>
      have ht : firstCandidate t = none := h t (List.mem_cons_self t ts)
      have hts : ∀ u ∈ ts, firstCandidate u = none :=
        fun u hu => h u (List.mem_cons_of_mem t hu)
      simp [orchestrate, ht, ih hts]

/-- Claim C4: for a valid DOI with every provider returning `not-found`,
resolution completes as a non-error outcome whose paper has no full-text
link and the neutral no-copy message, with the trace naming exactly the
attempted providers in order. -/
theorem c4_all_not_found_is_valid_negative
    (raw : String) (grace : Nat) (tiers : List (List Call))
    (hvalid : isValidDOI (normalizeDOI raw) = true)
    (hnf : ∀ t ∈ tiers, ∀ c ∈ t, c.result.status = PStatus.notFound) :
    ∃ paper trace,
      facadeHandle raw grace tiers =
        (FacadeOutcome.resolved paper trace,
          tiers.flatten.map fun c => c.pspec.name) ∧
      paper.fullTextLink = none ∧
      paper.message = some "no open-access copy found" ∧
      trace.map TraceEntry.provider = tiers.flatten.map fun c => c.pspec.name := by
  have hfc : ∀ t ∈ tiers, firstCandidate t = none :=
    fun t ht => firstCandidate_eq_none (hnf t ht)
  have horch := orchestrate_no_candidate grace hfc
  have hsel : selectLink tiers.flatten = none := by
    unfold selectLink
    have hfil : (tiers.flatten.filter fun c => isCandidate c.result) = [] := by
      rw [List.filter_eq_nil_iff]
      intro c hc
      obtain ⟨t, ht, hct⟩ := List.mem_flatten.mp hc
      simp [isCandidate, hnf t ht c hct]
    rw [hfil]
    exact List.argmin_nil linkKey
  refine ⟨reconcile none tiers.flatten, tiers.flatten.map (traceOf none),
    ?_, ?_, ?_, ?_⟩
  · simp [facadeHandle, hvalid, horch, hsel]
  · simp [reconcile]
  · simp [reconcile]
  · simp only [List.map_map]
    rfl

/-- Witness for C4 at a two-tier all-`not-found` run. -/
theorem c4_witness :
    ∃ paper trace,
      facadeHandle "10.1038/s41586-020-2649-2" 3
          [[⟨⟨"unpaywall", 1, 5000⟩,
             ⟨"unpaywall", PStatus.notFound, Metadata.empty, none, none⟩, 10⟩],
           [⟨⟨"arxiv", 2, 5000⟩,
             ⟨"arxiv", PStatus.notFound, Metadata.empty, none, none⟩, 20⟩]] =
        (FacadeOutcome.resolved paper trace,
          ([[⟨⟨"unpaywall", 1, 5000⟩,
             (⟨"unpaywall", PStatus.notFound, Metadata.empty, none, none⟩ : ProviderResult), 10⟩],
           [⟨⟨"arxiv", 2, 5000⟩,
             (⟨"arxiv", PStatus.notFound, Metadata.empty, none, none⟩ : ProviderResult), 20⟩]] :
             List (List Call)).flatten.map fun c => c.pspec.name) ∧
      paper.fullTextLink = none ∧
      paper.message = some "no open-access copy found" ∧
      trace.map TraceEntry.provider =
        ([[⟨⟨"unpaywall", 1, 5000⟩,
           (⟨"unpaywall", PStatus.notFound, Metadata.empty, none, none⟩ : ProviderResult), 10⟩],
         [⟨⟨"arxiv", 2, 5000⟩,
           (⟨"arxiv", PStatus.notFound, Metadata.empty, none, none⟩ : ProviderResult), 20⟩]] :
           List (List Call)).flatten.map fun c => c.pspec.name :=
  c4_all_not_found_is_valid_negative "10.1038/s41586-020-2649-2" 3 _
    (by decide) (by decide)

/-- Claim C5: resolution is deterministic — two runs of the facade on the
same DOI against the same fixed provider responses are identical — and,
for a fixed set of completed results whose candidates have pairwise
distinct tier-and-richness keys (so the time-dependent completion
tie-break never decides), the final link selection does not depend on
arrival order. -/
theorem c5_resolution_deterministic
    (raw : String) (grace : Nat) (tiers : List (List Call))
    (l l2 : List Call) (hperm : l.Perm l2)
    (hinj : ∀ c ∈ l, ∀ d ∈ l, isCandidate c.result = true →
      isCandidate d.result = true → linkKey c = linkKey d → c = d) :
    facadeHandle raw grace tiers = facadeHandle raw grace tiers ∧
    selectLink l = selectLink l2 := by
  refine ⟨rfl, ?_⟩
  have hfp : (l.filter fun c => isCandidate c.result).Perm
      (l2.filter fun c => isCandidate c.result) := hperm.filter _
  cases h1 : selectLink l with
  | none =>
      unfold selectLink at h1 ⊢
      rw [List.argmin_eq_none] at h1
      rw [h1] at hfp
      rw [hfp.symm.eq_nil, List.argmin_nil]
  | some w =>
      cases h2 : selectLink l2 with
      | none =>
          exfalso
          unfold selectLink at h2
          rw [List.argmin_eq_none] at h2
          rw [h2] at hfp
          have hwf : w ∈ l.filter fun c => isCandidate c.result := by
            have hspec := selectLink_spec h1
            exact List.mem_filter.mpr ⟨hspec.1, hspec.2.1⟩
          rw [hfp.eq_nil] at hwf
          exact absurd hwf (List.not_mem_nil w)
      | some w2 =>
          have s1 := selectLink_spec h1
          have s2 := selectLink_spec h2
          have hw2l : w2 ∈ l := hperm.mem_iff.mpr s2.1
          have hwl2 : w ∈ l2 := hperm.mem_iff.mp s1.1
          have le1 : linkKey w ≤ linkKey w2 := s1.2.2 w2 hw2l s2.2.1
          have le2 : linkKey w2 ≤ linkKey w := s2.2.2 w hwl2 s1.2.1
          exact congrArg some
            (hinj w s1.1 w2 hw2l s1.2.1 s2.2.1 (le_antisymm le1 le2))

/-- Witness for C5: two candidates with distinct tier keys, in both
arrival orders. -/
theorem c5_witness :
    facadeHandle "10.1/x" 3 [] = facadeHandle "10.1/x" 3 [] ∧
    selectLink
        [⟨⟨"unpaywall", 1, 5000⟩,
          ⟨"unpaywall", PStatus.found, ⟨some "T", none, none, none⟩,
            some "http://x/pdf", none⟩, 10⟩,
         ⟨⟨"arxiv", 2, 5000⟩,
          ⟨"arxiv", PStatus.found, Metadata.empty, some "http://a/pdf", none⟩, 7⟩] =
      selectLink
        [⟨⟨"arxiv", 2, 5000⟩,
          ⟨"arxiv", PStatus.found, Metadata.empty, some "http://a/pdf", none⟩, 7⟩,
         ⟨⟨"unpaywall", 1, 5000⟩,
          ⟨"unpaywall", PStatus.found, ⟨some "T", none, none, none⟩,
            some "http://x/pdf", none⟩, 10⟩] :=
  c5_resolution_deterministic "10.1/x" 3 []
    [⟨⟨"unpaywall", 1, 5000⟩,
      ⟨"unpaywall", PStatus.found, ⟨some "T", none, none, none⟩,
        some "http://x/pdf", none⟩, 10⟩,
     ⟨⟨"arxiv", 2, 5000⟩,
      ⟨"arxiv", PStatus.found, Metadata.empty, some "http://a/pdf", none⟩, 7⟩]
    [⟨⟨"arxiv", 2, 5000⟩,
      ⟨"arxiv", PStatus.found, Metadata.empty, some "http://a/pdf", none⟩, 7⟩,
     ⟨⟨"unpaywall", 1, 5000⟩,
      ⟨"unpaywall", PStatus.found, ⟨some "T", none, none, none⟩,
        some "http://x/pdf", none⟩, 10⟩]
    (by decide) (by decide)

/-- Claim C6: once a tier contains a link-bearing `found` (and no earlier
tier did), the orchestrator issues exactly the calls of the earlier tiers
and of that tier — tiers beyond the short-circuiting one are never
issued — the collected results are the earlier tiers' plus the
short-circuiting tier's calls completing within the grace window, and a
same-tier call completing after the window (not also listed in an earlier
tier) is never incorporated. -/
theorem c6_short_circuit_skips_later_tiers
    (grace : Nat) (pre post : List (List Call)) (t : List Call) (w : Call)
    (hpre : ∀ u ∈ pre, firstCandidate u = none)
    (hw : firstCandidate t = some w) :
    (orchestrate grace (pre ++ t :: post)).issued =
      (pre.flatten.map fun c => c.pspec.name) ++
        (t.map fun c => c.pspec.name) ∧
    (orchestrate grace (pre ++ t :: post)).results =
      pre.flatten ++ t.filter (fun c => c.time ≤ w.time + grace) ∧
    ∀ c ∈ t, w.time + grace < c.time → c ∉ pre.flatten →
      c ∉ (orchestrate grace (pre ++ t :: post)).results := by
  have main : (orchestrate grace (pre ++ t :: post)).issued =
      (pre.flatten.map fun c => c.pspec.name) ++
        (t.map fun c => c.pspec.name) ∧
      (orchestrate grace (pre ++ t :: post)).results =
        pre.flatten ++ t.filter (fun c => c.time ≤ w.time + grace) := by
    induction pre with
    | nil => simp [orchestrate, hw]
    | cons u pre ih =>
        have hu : firstCandidate u = none := hpre u (List.mem_cons_self u pre)
        have hpre2 : ∀ v ∈ pre, firstCandidate v = none :=
          fun v hv => hpre v (List.mem_cons_of_mem u hv)
        obtain ⟨ih1, ih2⟩ := ih hpre2
        constructor
        · simp [orchestrate, hu, ih1]
        · simp [orchestrate, hu, ih2]
  refine ⟨main.1, main.2, fun c hc hlate hfresh hmem => ?_⟩
  rw [main.2] at hmem
  rcases List.mem_append.mp hmem with h | h
  · exact hfresh h
  · have := (List.mem_filter.mp h).2
    simp only [decide_eq_true_eq] at this
    exact absurd this (Nat.not_le_of_lt hlate)

/-- Witness for C6: tier 1 all `not-found`, tier 2 short-circuits at time
10 with grace 3, a same-tier call at time 100 is abandoned, and tier 3 is
never issued. -/
theorem c6_witness :
    (orchestrate 3
        ([[⟨⟨"crossref", 1, 5000⟩,
            ⟨"crossref", PStatus.notFound, Metadata.empty, none, none⟩, 4⟩]] ++
          [⟨⟨"unpaywall", 2, 5000⟩,
             ⟨"unpaywall", PStatus.found, ⟨some "T", none, none, none⟩,
               some "http://x/pdf", none⟩, 10⟩,
           ⟨⟨"core", 2, 5000⟩,
             ⟨"core", PStatus.found, Metadata.empty, some "http://c/pdf", none⟩,
             100⟩] ::
          [[⟨⟨"mdpi", 3, 5000⟩,
             ⟨"mdpi", PStatus.found, Metadata.empty, some "http://m/pdf", none⟩,
             2⟩]])).issued =
      (([[⟨⟨"crossref", 1, 5000⟩,
          (⟨"crossref", PStatus.notFound, Metadata.empty, none, none⟩ :
            ProviderResult), 4⟩]] : List (List Call)).flatten.map
        fun c => c.pspec.name) ++
        ([⟨⟨"unpaywall", 2, 5000⟩,
           (⟨"unpaywall", PStatus.found, ⟨some "T", none, none, none⟩,
             some "http://x/pdf", none⟩ : ProviderResult), 10⟩,
          ⟨⟨"core", 2, 5000⟩,
           (⟨"core", PStatus.found, Metadata.empty, some "http://c/pdf", none⟩ :
             ProviderResult), 100⟩] : List Call).map (fun c => c.pspec.name) ∧
    (orchestrate 3
        ([[⟨⟨"crossref", 1, 5000⟩,
            ⟨"crossref", PStatus.notFound, Metadata.empty, none, none⟩, 4⟩]] ++
          [⟨⟨"unpaywall", 2, 5000⟩,
             ⟨"unpaywall", PStatus.found, ⟨some "T", none, none, none⟩,
               some "http://x/pdf", none⟩, 10⟩,
           ⟨⟨"core", 2, 5000⟩,
             ⟨"core", PStatus.found, Metadata.empty, some "http://c/pdf", none⟩,
             100⟩] ::
          [[⟨⟨"mdpi", 3, 5000⟩,
             ⟨"mdpi", PStatus.found, Metadata.empty, some "http://m/pdf", none⟩,
             2⟩]])).results =
      ([[⟨⟨"crossref", 1, 5000⟩,
          (⟨"crossref", PStatus.notFound, Metadata.empty, none, none⟩ :
            ProviderResult), 4⟩]] : List (List Call)).flatten ++
        ([⟨⟨"unpaywall", 2, 5000⟩,
           (⟨"unpaywall", PStatus.found, ⟨some "T", none, none, none⟩,
             some "http://x/pdf", none⟩ : ProviderResult), 10⟩,
          ⟨⟨"core", 2, 5000⟩,
           (⟨"core", PStatus.found, Metadata.empty, some "http://c/pdf", none⟩ :
             ProviderResult), 100⟩] : List Call).filter
          (fun c => c.time ≤ (⟨⟨"unpaywall", 2, 5000⟩,
            (⟨"unpaywall", PStatus.found, ⟨some "T", none, none, none⟩,
              some "http://x/pdf", none⟩ : ProviderResult), 10⟩ : Call).time + 3) ∧
    ∀ c ∈ ([⟨⟨"unpaywall", 2, 5000⟩,
           (⟨"unpaywall", PStatus.found, ⟨some "T", none, none, none⟩,
             some "http://x/pdf", none⟩ : ProviderResult), 10⟩,
          ⟨⟨"core", 2, 5000⟩,
           (⟨"core", PStatus.found, Metadata.empty, some "http://c/pdf", none⟩ :
             ProviderResult), 100⟩] : List Call),
      (⟨⟨"unpaywall", 2, 5000⟩,
        (⟨"unpaywall", PStatus.found, ⟨some "T", none, none, none⟩,
          some "http://x/pdf", none⟩ : ProviderResult), 10⟩ : Call).time + 3 <
          c.time →
        c ∉ ([[⟨⟨"crossref", 1, 5000⟩,
          (⟨"crossref", PStatus.notFound, Metadata.empty, none, none⟩ :
            ProviderResult), 4⟩]] : List (List Call)).flatten →
        c ∉ (orchestrate 3
          ([[⟨⟨"crossref", 1, 5000⟩,
              ⟨"crossref", PStatus.notFound, Metadata.empty, none, none⟩, 4⟩]] ++
            [⟨⟨"unpaywall", 2, 5000⟩,
               ⟨"unpaywall", PStatus.found, ⟨some "T", none, none, none⟩,
                 some "http://x/pdf", none⟩, 10⟩,
             ⟨⟨"core", 2, 5000⟩,
               ⟨"core", PStatus.found, Metadata.empty, some "http://c/pdf", none⟩,
               100⟩] ::
            [[⟨⟨"mdpi", 3, 5000⟩,
               ⟨"mdpi", PStatus.found, Metadata.empty, some "http://m/pdf", none⟩,
               2⟩]])).results :=
  c6_short_circuit_skips_later_tiers 3
    [[⟨⟨"crossref", 1, 5000⟩,
       ⟨"crossref", PStatus.notFound, Metadata.empty, none, none⟩, 4⟩]]
    [[⟨⟨"mdpi", 3, 5000⟩,
       ⟨"mdpi", PStatus.found, Metadata.empty, some "http://m/pdf", none⟩, 2⟩]]
    [⟨⟨"unpaywall", 2, 5000⟩,
      ⟨"unpaywall", PStatus.found, ⟨some "T", none, none, none⟩,
        some "http://x/pdf", none⟩, 10⟩,
     ⟨⟨"core", 2, 5000⟩,
      ⟨"core", PStatus.found, Metadata.empty, some "http://c/pdf", none⟩, 100⟩]
    ⟨⟨"unpaywall", 2, 5000⟩,
      ⟨"unpaywall", PStatus.found, ⟨some "T", none, none, none⟩,
        some "http://x/pdf", none⟩, 10⟩
    (by decide) (by decide)
